import Mathlib

set_option linter.unusedVariables false

/-!
Verification of the DefenSys backend scanning components against their
natural-language specification.  The definitions below are shallow
embeddings of the Python sources:

* `backend/api/scan_orchestrator.py`   — `ScanOrchestrator._execute_scan`
* `backend/scanners/intelligent_scheduler.py` — resource monitor and task scheduler
* `backend/scanners/advanced_optimization.py` — cache manager and incremental plan
* `backend/scanners/optimized_manager.py` — cached scanner execution

Machine floats of the source are idealised as exact rationals `ℚ`
(only comparisons and linear arithmetic on them matter for the
properties below); Python dicts become association lists; Redis becomes
an association list of values paired with their expiry instants.
-/

/-! ## Scan orchestrator (`backend/api/scan_orchestrator.py`) -/

/-- State of one scan row as `_execute_scan` updates it through `crud`:
`status`, `progress`, `stage`, the accumulated vulnerability and finding
lists, the per-tool error log (the `print` inside the per-tool `except`
branch, as (tool, message) pairs), and the sequence of progress values
handed to `crud.update_scan_progress`, in call order. -/
structure ScanRecord (α : Type) where
  status : String
  progress : Nat
  stage : String
  vulns : List α
  findings : List α
  errors : List (String × String)
  progressUpdates : List Nat
deriving DecidableEq

/-- One tool execution inside the loop of `_execute_scan`:
`_run_scanner` followed by `_process_scanner_results` yields
(vulnerabilities, findings); an exception caught by the per-tool
`except` branch is an `error` message.  A missing scanner
(`continue`) is `ok ([], [])`. -/
abbrev ToolRun (α : Type) := String → Except String (List α × List α)

/-- Whether running the given tool succeeds with no exception. -/
def toolSucceeds (run : ToolRun α) (t : String) : Bool :=
  match run t with
  | .ok _ => true
  | .error _ => false

/-- The vulnerabilities produced by a successful tool run (empty on failure). -/
def okVulns (run : ToolRun α) (t : String) : List α :=
  match run t with
  | .ok p => p.1
  | .error _ => []

/-- The findings produced by a successful tool run (empty on failure). -/
def okFindings (run : ToolRun α) (t : String) : List α :=
  match run t with
  | .ok p => p.2
  | .error _ => []

/-- The error message of a failed tool run (empty string on success). -/
def errOf (run : ToolRun α) (t : String) : String :=
  match run t with
  | .ok _ => ""
  | .error e => e

/-- Body of `for idx, tool_name in enumerate(tools)` in `_execute_scan`:
records `progress = int((idx / total_tools) * 90)` (modelled as the exact
integer `idx * 90 / total`; the float computation of the source can be one
below this for non-dyadic ratios) and the stage, then either extends the
vulnerability/finding accumulators (success) or appends the caught
per-tool error and continues. -/
def stepTool (total : Nat) (run : ToolRun α) (acc : ScanRecord α)
    (it : Nat × String) : ScanRecord α :=
  let progress := it.1 * 90 / total
  let acc1 : ScanRecord α :=
    { acc with
      progress := progress,
      stage := "Running " ++ it.2,
      progressUpdates := acc.progressUpdates ++ [progress] }
  match run it.2 with
  | .ok p =>
      { acc1 with vulns := acc1.vulns ++ p.1, findings := acc1.findings ++ p.2 }
  | .error e =>
      { acc1 with errors := acc1.errors ++ [(it.2, e)] }

/-- Model of `ScanOrchestrator._execute_scan` (the body of its outer `try`): set the
scan to running, loop over the tools accumulating results and per-tool
errors, record progress 95 ("Saving results"), then mark the scan
`"completed"` with progress 100.  The outer `except` branch (job-fatal
errors from `crud` itself) is outside this pure body. -/
def executeScan (tools : List String) (run : ToolRun α) : ScanRecord α :=
  let init : ScanRecord α :=
    { status := "running", progress := 0, stage := "Starting scan",
      vulns := [], findings := [], errors := [], progressUpdates := [] }
  let afterTools := (tools.enum).foldl (stepTool tools.length run) init
  let afterSave :=
    { afterTools with
      progress := 95,
      stage := "Saving results",
      progressUpdates := afterTools.progressUpdates ++ [95] }
  { afterSave with
    status := "completed",
    progress := 100,
    stage := "Completed",
    progressUpdates := afterSave.progressUpdates ++ [100] }

/-- Number of tools of the job whose run fails. -/
def failures (run : ToolRun α) (tools : List String) : Nat :=
  (tools.filter (fun t => toolSucceeds run t = false)).length

/-! ## Resource monitor and task scheduler
(`backend/scanners/intelligent_scheduler.py`) -/

/-- The `TaskPriority` enum; `val` gives the Python enum value used by
`ScheduledTask.__lt__`. -/
inductive TaskPriority where
  | critical
  | high
  | medium
  | low
deriving DecidableEq

/-- The numeric value of the Python `TaskPriority` enum member. -/
def TaskPriority.val : TaskPriority → Nat
  | .critical => 1
  | .high => 2
  | .medium => 3
  | .low => 4

/-- The `ResourceType` enum. -/
inductive ResourceType where
  | cpuIntensive
  | ioIntensive
  | memoryIntensive
  | networkIntensive
deriving DecidableEq

/-- The `ResourceRequirement` dataclass (floats as exact rationals). -/
structure ResourceRequirement where
  cpu_cores : ℚ := 1
  memory_mb : ℤ := 128
  disk_io_mb : ℤ := 0
  network_mb : ℤ := 0
  gpu_memory_mb : ℤ := 0
deriving DecidableEq

/-- The `TaskMetrics` dataclass. -/
structure TaskMetrics where
  average_duration : ℚ := 60
  cpu_utilization : ℚ := 1/2
  memory_peak : ℤ := 128
  io_operations : ℤ := 0
  success_rate : ℚ := 95/100
  last_updated : ℚ := 0
deriving DecidableEq

/-- The `ScheduledTask` dataclass. -/
structure ScheduledTask where
  task_id : String
  scanner_name : String
  path : String
  priority : TaskPriority
  resource_type : ResourceType
  requirements : ResourceRequirement
  metrics : TaskMetrics
  dependencies : List String := []
  estimated_start_time : ℚ := 0
  estimated_completion_time : ℚ := 0
deriving DecidableEq

/-- Model of `ScheduledTask.__lt__`: order by priority value first, then by
estimated completion time. -/
def taskLt (a b : ScheduledTask) : Bool :=
  if a.priority.val ≠ b.priority.val then decide (a.priority.val < b.priority.val)
  else decide (a.estimated_completion_time < b.estimated_completion_time)

/-- The fields of the cached resource snapshot that
`SystemResourceMonitor.can_handle_task` reads (`available_cpu_cores`,
`available_memory_mb`, `performance_score`); `_update_resource_cache`
always populates all three, also on its fallback path. -/
structure ResourceSnapshot where
  available_cpu_cores : ℚ
  available_memory_mb : ℤ
  performance_score : ℚ
deriving DecidableEq

/-- Model of `SystemResourceMonitor.can_handle_task`: refuse when the requested CPU
cores exceed the available cores, when the requested memory exceeds the
available memory, or when the performance score is below 0.3 (system
under heavy load); otherwise admit. -/
def can_handle_task (res : ResourceSnapshot) (req : ResourceRequirement) : Bool :=
  if req.cpu_cores > res.available_cpu_cores then false
  else if req.memory_mb > res.available_memory_mb then false
  else if res.performance_score < 3/10 then false
  else true

/-! ### CPython `heapq`, as used for the `task_queue` of the scheduler.
`heappush`/`heappop` are transcribed from the CPython module `heapq`
(`_siftdown` / `_siftup`); the loops take explicit fuel, always called
with more fuel than the loop can iterate, so the embedding computes by
structural recursion. -/

/-- Model of `heapq._siftdown(heap, startpos, pos)` with `newitem = heap[pos]`
passed explicitly: bubble `newitem` toward the root while it is smaller
than its parent.  `fuel ≥ pos + 1` bounds the iterations (each step
strictly decreases `pos`). -/
def siftdownLoop (lt : α → α → Bool) (startpos : Nat) :
    Nat → List α → Nat → α → List α
  | 0, heap, pos, newitem => heap.set pos newitem
  | fuel + 1, heap, pos, newitem =>
    if startpos < pos then
      let parentpos := (pos - 1) / 2
      match heap.get? parentpos with
      | some parent =>
        if lt newitem parent then
          siftdownLoop lt startpos fuel (heap.set pos parent) parentpos newitem
        else heap.set pos newitem
      | none => heap.set pos newitem
    else heap.set pos newitem

/-- Model of the `heapq._siftup(heap, pos)` loop: move the hole at `pos` down to a
leaf, then restore `newitem` with `_siftdown`.  `fuel ≥ heap.length`
bounds the iterations (each step at least doubles `pos + 1`). -/
def siftupLoop (lt : α → α → Bool) (endpos startpos : Nat) (newitem : α) :
    Nat → List α → Nat → List α
  | 0, heap, pos => siftdownLoop lt startpos (pos + 1) (heap.set pos newitem) pos newitem
  | fuel + 1, heap, pos =>
    let childpos := 2 * pos + 1
    if childpos < endpos then
      let rightpos := childpos + 1
      let childpos :=
        if rightpos < endpos &&
            !(lt (heap.getD childpos newitem) (heap.getD rightpos newitem)) then
          rightpos
        else childpos
      siftupLoop lt endpos startpos newitem fuel
        (heap.set pos (heap.getD childpos newitem)) childpos
    else
      siftdownLoop lt startpos (pos + 1) (heap.set pos newitem) pos newitem

/-- Model of `heapq.heappush(heap, item)`: append, then sift the new last element
down toward the root. -/
def heappush (lt : α → α → Bool) (heap : List α) (item : α) : List α :=
  siftdownLoop lt 0 (heap.length + 1) (heap ++ [item]) heap.length item

/-- Model of `heapq.heappop(heap)`: pop the last element; if the heap is still
non-empty, return the old root, move the last element to the root and
sift it up.  `none` models the `IndexError` on an empty heap. -/
def heappop (lt : α → α → Bool) (heap : List α) : Option (α × List α) :=
  match heap.dropLast, heap.getLast? with
  | _, none => none
  | [], some lastelt => some (lastelt, [])
  | h0 :: rest, some lastelt =>
    let shrunk := (h0 :: rest).set 0 lastelt
    some (h0, siftupLoop lt shrunk.length 0 lastelt (shrunk.length + 1) shrunk 0)


/-- One entry of `IntelligentTaskScheduler.scanner_profiles`. -/
structure ScannerProfile where
  priority : TaskPriority
  resource_type : ResourceType
  requirements : ResourceRequirement
  metrics : TaskMetrics
deriving DecidableEq

/-- A value of the `running_tasks` dict. -/
structure RunningInfo where
  task : ScheduledTask
  start_time : ℚ
deriving DecidableEq

/-- A value of the `completed_tasks` dict. -/
structure CompletedInfo where
  task : ScheduledTask
  execution_time : ℚ
  success : Bool
  completed_at : ℚ
deriving DecidableEq

/-- The `scheduler_stats` dict. -/
structure SchedulerStats where
  tasks_scheduled : Nat := 0
  tasks_completed : Nat := 0
  tasks_failed : Nat := 0
  average_wait_time : ℚ := 0
  average_execution_time : ℚ := 0
deriving DecidableEq

/-- Python dict assignment `d[k] = v` on an association list: drop any
old binding for `k` and append the new one. -/
def dictInsert [BEq κ] (k : κ) (v : β) (d : List (κ × β)) : List (κ × β) :=
  (d.filter (fun p => !(p.1 == k))) ++ [(k, v)]

/-- The built-in scanner performance profiles of
`IntelligentTaskScheduler.__init__` (unset dataclass fields keep their
declared defaults). -/
def defaultScannerProfiles : List (String × ScannerProfile) :=
  [ ("secret",
      { priority := .critical, resource_type := .ioIntensive,
        requirements := { cpu_cores := 1, memory_mb := 64 },
        metrics := { average_duration := 20, cpu_utilization := 3/10, memory_peak := 64 } }),
    ("dependency",
      { priority := .high, resource_type := .networkIntensive,
        requirements := { cpu_cores := 1, memory_mb := 128, network_mb := 10 },
        metrics := { average_duration := 30, cpu_utilization := 4/10, memory_peak := 128 } }),
    ("sast",
      { priority := .high, resource_type := .cpuIntensive,
        requirements := { cpu_cores := 2, memory_mb := 256 },
        metrics := { average_duration := 45, cpu_utilization := 7/10, memory_peak := 256 } }),
    ("snyk",
      { priority := .medium, resource_type := .networkIntensive,
        requirements := { cpu_cores := 2, memory_mb := 512, network_mb := 20 },
        metrics := { average_duration := 90, cpu_utilization := 6/10, memory_peak := 512 } }),
    ("trivy",
      { priority := .medium, resource_type := .cpuIntensive,
        requirements := { cpu_cores := 2, memory_mb := 384 },
        metrics := { average_duration := 60, cpu_utilization := 8/10, memory_peak := 384 } }),
    ("semgrep",
      { priority := .medium, resource_type := .cpuIntensive,
        requirements := { cpu_cores := 2, memory_mb := 320 },
        metrics := { average_duration := 55, cpu_utilization := 7/10, memory_peak := 320 } }),
    ("gitleaks",
      { priority := .high, resource_type := .ioIntensive,
        requirements := { cpu_cores := 1, memory_mb := 128 },
        metrics := { average_duration := 25, cpu_utilization := 4/10, memory_peak := 128 } }),
    ("safety",
      { priority := .medium, resource_type := .networkIntensive,
        requirements := { cpu_cores := 1, memory_mb := 96, network_mb := 5 },
        metrics := { average_duration := 20, cpu_utilization := 3/10, memory_peak := 96 } }),
    ("npm_audit",
      { priority := .medium, resource_type := .networkIntensive,
        requirements := { cpu_cores := 1, memory_mb := 128, network_mb := 15 },
        metrics := { average_duration := 35, cpu_utilization := 4/10, memory_peak := 128 } }),
    ("yarn_audit",
      { priority := .medium, resource_type := .networkIntensive,
        requirements := { cpu_cores := 1, memory_mb := 128, network_mb := 15 },
        metrics := { average_duration := 40, cpu_utilization := 4/10, memory_peak := 128 } }) ]

/-- State of an `IntelligentTaskScheduler` together with the cached
snapshot of its `SystemResourceMonitor`. -/
structure SchedulerState where
  resources : ResourceSnapshot
  task_queue : List ScheduledTask := []
  running_tasks : List (String × RunningInfo) := []
  completed_tasks : List (String × CompletedInfo) := []
  scheduler_stats : SchedulerStats := {}
  scanner_profiles : List (String × ScannerProfile) := defaultScannerProfiles
deriving DecidableEq

/-- Model of `IntelligentTaskScheduler._calculate_wait_time`. -/
def calculate_wait_time (st : SchedulerState) (new_task : ScheduledTask) : ℚ :=
  let queue_length := st.task_queue.length
  let running_tasks_count := st.running_tasks.length
  if queue_length = 0 ∧ running_tasks_count = 0 then 0
  else
    let average_duration :=
      (st.task_queue.map (fun t => t.metrics.average_duration)).sum /
        ((max 1 queue_length : Nat) : ℚ)
    let resource_factor : ℚ :=
      if can_handle_task st.resources new_task.requirements then 1 else 2
    ((queue_length : ℚ) * average_duration * (1/2)) * resource_factor

/-- Model of `IntelligentTaskScheduler.schedule_task`: build the task from the
scanner profile (default profile for unknown scanners), fill in the
estimated start and completion times, push it on the heap and bump
`tasks_scheduled`.  Returns the task id and the new state. -/
def schedule_task (st : SchedulerState) (scanner_name path : String)
    (task_id : Option String) (now : ℚ) : String × SchedulerState :=
  let tid :=
    match task_id with
    | some t => t
    | none => scanner_name ++ "_" ++ toString (Int.floor (now * 1000))
  let profile := (st.scanner_profiles.lookup scanner_name).getD
    { priority := .medium, resource_type := .cpuIntensive,
      requirements := {}, metrics := {} }
  let task0 : ScheduledTask :=
    { task_id := tid, scanner_name := scanner_name, path := path,
      priority := profile.priority, resource_type := profile.resource_type,
      requirements := profile.requirements, metrics := profile.metrics }
  let est_start := now + calculate_wait_time st task0
  let task :=
    { task0 with
      estimated_start_time := est_start,
      estimated_completion_time := est_start + task0.metrics.average_duration }
  (tid,
    { st with
      task_queue := heappush taskLt st.task_queue task,
      scheduler_stats :=
        { st.scheduler_stats with
          tasks_scheduled := st.scheduler_stats.tasks_scheduled + 1 } })

/-- Model of `IntelligentTaskScheduler._dependencies_satisfied`: every dependency
id appears in `completed_tasks`. -/
def dependencies_satisfied (st : SchedulerState) (task : ScheduledTask) : Bool :=
  task.dependencies.all (fun dep => (st.completed_tasks.lookup dep).isSome)

/-- Model of `IntelligentTaskScheduler.get_next_task`: peek the heap root; if its
dependencies are satisfied and the resource monitor admits it, pop and
return it, else return nothing for this cycle (each `else` branch of the
source `break`s out of the loop without looking further). -/
def get_next_task (st : SchedulerState) : Option ScheduledTask × SchedulerState :=
  match st.task_queue with
  | [] => (none, st)
  | next_task :: _ =>
    if dependencies_satisfied st next_task then
      if can_handle_task st.resources next_task.requirements then
        match heappop taskLt st.task_queue with
        | some (t, rest) => (some t, { st with task_queue := rest })
        | none => (none, st)
      else (none, st)
    else (none, st)

/-- Model of `IntelligentTaskScheduler.mark_task_running`. -/
def mark_task_running (st : SchedulerState) (task : ScheduledTask) (now : ℚ) :
    SchedulerState :=
  { st with running_tasks := dictInsert task.task_id ⟨task, now⟩ st.running_tasks }

/-- Model of `IntelligentTaskScheduler._update_scanner_metrics`: exponential
moving averages with learning rate 0.1 on the profile metrics of the scanner
(unknown scanners are ignored). -/
def update_scanner_metrics (st : SchedulerState) (scanner_name : String)
    (execution_time : ℚ) (success : Bool) (now : ℚ) : SchedulerState :=
  match st.scanner_profiles.lookup scanner_name with
  | none => st
  | some profile =>
    let m := profile.metrics
    let m2 :=
      { m with
        average_duration := (1 - 1/10) * m.average_duration + (1/10) * execution_time,
        success_rate := (9/10) * m.success_rate + (1/10) * (if success then 1 else 0),
        last_updated := now }
    { st with
      scanner_profiles :=
        dictInsert scanner_name { profile with metrics := m2 } st.scanner_profiles }

/-- Model of `IntelligentTaskScheduler.mark_task_completed`: a task id that is not
running returns immediately; otherwise move the task from running to
completed, bump the success/failure counters, fold the execution time
into `average_execution_time` and update the scanner profile metrics. -/
def mark_task_completed (st : SchedulerState) (task_id : String) (success : Bool)
    (execution_time : Option ℚ) (now : ℚ) : SchedulerState :=
  match st.running_tasks.lookup task_id with
  | none => st
  | some running_info =>
    let st1 :=
      { st with running_tasks := st.running_tasks.filter (fun p => !(p.1 == task_id)) }
    let exec := execution_time.getD (now - running_info.start_time)
    let st2 :=
      { st1 with
        completed_tasks :=
          dictInsert task_id ⟨running_info.task, exec, success, now⟩ st1.completed_tasks }
    let stats := st2.scheduler_stats
    let stats :=
      if success then { stats with tasks_completed := stats.tasks_completed + 1 }
      else { stats with tasks_failed := stats.tasks_failed + 1 }
    let total_completed := stats.tasks_completed + stats.tasks_failed
    let stats :=
      if 0 < total_completed then
        { stats with
          average_execution_time :=
            (stats.average_execution_time * ((total_completed : ℚ) - 1) + exec) /
              (total_completed : ℚ) }
      else stats
    let st3 := { st2 with scheduler_stats := stats }
    update_scanner_metrics st3 running_info.task.scanner_name exec success now

/-! ## Advanced cache manager (`backend/scanners/advanced_optimization.py`) -/

/-- The `cached_result` dict that `AdvancedCacheManager.cache_scan_result`
pickles into Redis: the payload plus metadata, including the path
checksum computed at store time (checksums modelled as `Nat`). -/
structure CacheEntry (α : Type) where
  result : α
  cached_at : ℚ
  scanner : String
  path_checksum : Nat
deriving DecidableEq

/-- A Redis value together with the absolute expiry instant that `setex`
gave it. -/
structure Stored (β : Type) where
  value : β
  expires_at : ℚ
deriving DecidableEq

/-- The slice of the Redis keyspace that `AdvancedCacheManager` uses:
scan-result entries under the hierarchical key (modelled by the
(scanner, path, config) triple the key hash is computed from, collisions
ignored) and the per-path checksum entries under `checksum:{path}`,
which are keyed by the path alone. -/
structure CacheState (α : Type) where
  scan_cache : List ((String × String × String) × Stored (CacheEntry α)) := []
  checksum_cache : List (String × Stored Nat) := []
deriving DecidableEq

/-- Redis `GET` at time `now`: an entry whose expiry has passed is gone
(`setex` keys live for exactly their TTL). -/
def redisGet [BEq κ] (now : ℚ) (store : List (κ × Stored β)) (k : κ) : Option β :=
  match store.lookup k with
  | some s => if now < s.expires_at then some s.value else none
  | none => none

/-- Redis `DELETE`. -/
def redisDelete [BEq κ] (store : List (κ × Stored β)) (k : κ) : List (κ × Stored β) :=
  store.filter (fun p => !(p.1 == k))

/-- Model of `AdvancedCacheManager.cache_scan_result`: store the entry (with the
checksum `cur` freshly computed from the target) under the scan key with
TTL `cache_ttl["scan_results"] = 3600`, and store `cur` under the
per-path checksum key with TTL `cache_ttl["file_hashes"] = 86400`. -/
def cache_scan_result (st : CacheState α) (scanner path config : String)
    (result : α) (cur : Nat) (now : ℚ) : CacheState α :=
  let entry : CacheEntry α :=
    { result := result, cached_at := now, scanner := scanner, path_checksum := cur }
  { scan_cache := dictInsert (scanner, path, config) ⟨entry, now + 3600⟩ st.scan_cache,
    checksum_cache := dictInsert path ⟨cur, now + 86400⟩ st.checksum_cache }

/-- Model of `AdvancedCacheManager._is_cache_valid`: compare the checksum `cur`
recomputed from the live target against the value of the per-path
checksum key (NOT against the checksum stored inside the entry); a
missing or expired checksum key means invalid. -/
def is_cache_valid (st : CacheState α) (path : String) (cur : Nat) (now : ℚ) : Bool :=
  match redisGet now st.checksum_cache path with
  | some c => cur == c
  | none => false

/-- Model of `AdvancedCacheManager.get_cached_scan_result`: fetch the entry under
the scan key; if present and `_is_cache_valid` holds, report a hit with
the deserialized entry; if present but invalid, delete the scan key and
report a miss; if absent (or expired), report a miss.  Returns the
lookup outcome and the possibly-updated store. -/
def get_cached_scan_result (st : CacheState α) (scanner path config : String)
    (cur : Nat) (now : ℚ) : Option (CacheEntry α) × CacheState α :=
  match redisGet now st.scan_cache (scanner, path, config) with
  | none => (none, st)
  | some entry =>
    if is_cache_valid st path cur now then (some entry, st)
    else (none, { st with scan_cache := redisDelete st.scan_cache (scanner, path, config) })

/-! ## Incremental scan planning
(`IncrementalScanManager`, `backend/scanners/advanced_optimization.py`) -/

/-- The static `scanner_file_patterns` table of
`IncrementalScanManager._scanner_affected_by_changes`. -/
def scannerFilePatternTable : List (String × List String) :=
  [ ("sast", [".py"]),
    ("dependency", ["requirements.txt", "setup.py", "pyproject.toml", "Pipfile"]),
    ("secret", ["*"]),
    ("snyk", ["package.json", "requirements.txt", "pom.xml", "build.gradle"]),
    ("trivy", ["Dockerfile", "requirements.txt", "package.json"]),
    ("semgrep", [".py", ".js", ".ts", ".java", ".go"]),
    ("gitleaks", ["*"]),
    ("safety", ["requirements.txt", "setup.py"]),
    ("npm_audit", ["package.json", "package-lock.json"]),
    ("yarn_audit", ["package.json", "yarn.lock"]) ]

/-- Lookup `scanner_file_patterns.get(scanner, ["*"])`. -/
def scanner_file_patterns (scanner : String) : List String :=
  (scannerFilePatternTable.lookup scanner).getD ["*"]

/-- Model of `pathlib.Path(p).name`: the component after the last slash
(computed as a single pass over the characters, restarting the
accumulator at every separator). -/
def fileName (p : String) : String :=
  String.mk (p.toList.foldl (fun acc c => if c = '/' then [] else acc ++ [c]) [])

/-- Test `pattern.startswith(".")`. -/
def startsWithDot (pat : String) : Bool :=
  match pat.toList with
  | c :: _ => c == '.'
  | [] => false

/-- Index of the last `.` in a character list, if any. -/
def lastDotIndex (cs : List Char) : Option Nat :=
  match cs.reverse.findIdx? (fun c => c == '.') with
  | some j => some (cs.length - 1 - j)
  | none => none

/-- Model of `pathlib.Path(p).suffix`: the final extension of the name including
its dot; empty when the name has no dot, starts with its only dot, or
ends with a dot (pathlib keeps `name[i:]` only when `0 < i < len - 1`
for the index i of the last dot of the name). -/
def fileSuffix (p : String) : String :=
  let n := (fileName p).toList
  match lastDotIndex n with
  | some i => if 0 < i ∧ i < n.length - 1 then String.mk (n.drop i) else ""
  | none => ""

/-- Model of `IncrementalScanManager._scanner_affected_by_changes`: some changed
file matches some pattern of the table of the scanner.  The source tests
an elif chain per pattern: `"*"` matches everything; a pattern starting
with a dot matches when the file suffix equals it; and when neither arm
fires — also for a dot pattern whose suffix test failed — the chain
falls through to comparing the bare file name against the pattern (so a
file literally named `.py` matches the pattern `.py` by name even
though its pathlib suffix is empty). -/
def scanner_affected_by_changes (scanner : String) (changed_files : List String) : Bool :=
  let patterns := scanner_file_patterns scanner
  changed_files.any (fun fp =>
    patterns.any (fun pat =>
      if pat == "*" then true
      else if startsWithDot pat && fileSuffix fp == pat then true
      else fileName fp == pat))

/-- The `scan_plan` dict built by `get_incremental_scan_plan`; the field
`rescan_needed` models the partial-scan list of the source (dict key
"partial scan needed", with an underscore in the source). -/
structure ScanPlan where
  full_scan_needed : List String := []
  rescan_needed : List String := []
  cache_valid : List String := []
deriving DecidableEq

/-- Model of `IncrementalScanManager.get_incremental_scan_plan`: with no changed
files, each scanner goes to `cache_valid` or `full_scan_needed`
according to whether `get_cached_scan_result` hits; with changed files,
a scanner affected by the changes must re-run, and the rest again split
on the cache.  `cacheHit` abstracts the success of the awaited
`get_cached_scan_result` call for each scanner. -/
def get_incremental_scan_plan (scanners changed_files : List String)
    (cacheHit : String → Bool) : ScanPlan :=
  if changed_files.isEmpty then
    { full_scan_needed := scanners.filter (fun s => !cacheHit s),
      rescan_needed := [],
      cache_valid := scanners.filter (fun s => cacheHit s) }
  else
    { full_scan_needed := scanners.filter
        (fun s => !scanner_affected_by_changes s changed_files && !cacheHit s),
      rescan_needed := scanners.filter
        (fun s => scanner_affected_by_changes s changed_files),
      cache_valid := scanners.filter
        (fun s => !scanner_affected_by_changes s changed_files && cacheHit s) }

/-! ## Cached scanner execution and in-flight behaviour
(`OptimizedScannerManager._execute_scanner_async`,
`backend/scanners/optimized_manager.py`)

`_execute_scanner_async` awaits a cache lookup for the key of the task, on a
miss runs the scanner in an executor (an await point during which other
coroutines run), and finally awaits the cache store.  The model below
is that control skeleton for two concurrent requests sharing one cache
key: each request atomically performs its next step when scheduled, and
a schedule is the interleaving order chosen by the event loop. -/

/-- Where one request for the shared key stands: before its cache
lookup, between lookup-miss and result store (its adapter invocation is
in flight), or finished (recording whether it was served from cache). -/
inductive ReqPhase where
  | notStarted
  | inFlight
  | done (cacheHit : Bool)
deriving DecidableEq

/-- Shared cache plus the phase of each of the two requests and the
total number of adapter invocations started. -/
structure FlightState where
  cache : Option Nat := none
  phase0 : ReqPhase := .notStarted
  phase1 : ReqPhase := .notStarted
  invocations : Nat := 0
deriving DecidableEq

/-- Phase of request `i`. -/
def phaseOf (s : FlightState) (i : Bool) : ReqPhase :=
  if i then s.phase1 else s.phase0

/-- Replace the phase of request `i`. -/
def setPhase (s : FlightState) (i : Bool) (p : ReqPhase) : FlightState :=
  if i then { s with phase1 := p } else { s with phase0 := p }

/-- One scheduled step of request `i` through
`_execute_scanner_async`: a not-yet-started request performs its cache
lookup (`_get_cached_result`) and either finishes with the cached value
or — finding no pending marker of any kind to attach to — starts its own
adapter invocation; an in-flight request finishes its invocation and
stores its result (`_cache_result`); a finished request does nothing. -/
def flightStep (adapterResult : Nat) (s : FlightState) (i : Bool) : FlightState :=
  match phaseOf s i with
  | .notStarted =>
    match s.cache with
    | some _ => setPhase s i (.done true)
    | none => { setPhase s i .inFlight with invocations := s.invocations + 1 }
  | .inFlight => { setPhase s i (.done false) with cache := some adapterResult }
  | .done _ => s

/-- Run a schedule (event-loop interleaving) from the initial state. -/
def flightRun (adapterResult : Nat) (sched : List Bool) : FlightState :=
  sched.foldl (flightStep adapterResult) {}

/-- Number of adapter invocations currently in flight. -/
def inFlightCount (s : FlightState) : Nat :=
  (if s.phase0 = .inFlight then 1 else 0) + (if s.phase1 = .inFlight then 1 else 0)

/-! ## Concrete instances used by witnesses and counterexamples -/

/-- A run where `nmap` succeeds with one vulnerability and one finding
and every other tool raises. -/
def c1Run : ToolRun Nat := fun t => if t = "nmap" then .ok ([1], [2]) else .error "boom"

/-- A two-tool job. -/
def c1Tools : List String := ["nmap", "nuclei"]

/-- A run where every tool succeeds with no results. -/
def allOkRun : ToolRun Nat := fun _ => .ok ([], [])

/-! ## Helper lemmas about the orchestrator loop -/

/-- The error-log entries contributed by one tool. -/
def errEntries (run : ToolRun α) (t : String) : List (String × String) :=
  match run t with
  | .ok _ => []
  | .error e => [(t, e)]

theorem stepTool_status (total : Nat) (run : ToolRun α) (acc : ScanRecord α)
    (it : Nat × String) : (stepTool total run acc it).status = acc.status := by
  unfold stepTool
  cases run it.2 <;> rfl

theorem stepTool_findings (total : Nat) (run : ToolRun α) (acc : ScanRecord α)
    (it : Nat × String) :
    (stepTool total run acc it).findings = acc.findings ++ okFindings run it.2 := by
  unfold stepTool okFindings
  cases run it.2 <;> simp

theorem stepTool_vulns (total : Nat) (run : ToolRun α) (acc : ScanRecord α)
    (it : Nat × String) :
    (stepTool total run acc it).vulns = acc.vulns ++ okVulns run it.2 := by
  unfold stepTool okVulns
  cases run it.2 <;> simp

theorem stepTool_errors (total : Nat) (run : ToolRun α) (acc : ScanRecord α)
    (it : Nat × String) :
    (stepTool total run acc it).errors = acc.errors ++ errEntries run it.2 := by
  unfold stepTool errEntries
  cases run it.2 <;> simp

theorem stepTool_updates (total : Nat) (run : ToolRun α) (acc : ScanRecord α)
    (it : Nat × String) :
    (stepTool total run acc it).progressUpdates =
      acc.progressUpdates ++ [it.1 * 90 / total] := by
  unfold stepTool
  cases run it.2 <;> rfl

theorem foldl_stepTool_status (total : Nat) (run : ToolRun α) :
    ∀ (tools : List String) (n : Nat) (acc : ScanRecord α),
      (((List.enumFrom n tools).foldl (stepTool total run) acc)).status = acc.status := by
  intro tools
  induction tools with
  | nil => intro n acc; rfl
  | cons t ts ih =>
    intro n acc
    rw [List.enumFrom_cons, List.foldl_cons, ih, stepTool_status]

theorem foldl_stepTool_findings (total : Nat) (run : ToolRun α) :
    ∀ (tools : List String) (n : Nat) (acc : ScanRecord α),
      (((List.enumFrom n tools).foldl (stepTool total run) acc)).findings =
        acc.findings ++ tools.flatMap (fun t => okFindings run t) := by
  intro tools
  induction tools with
  | nil => intro n acc; simp
  | cons t ts ih =>
    intro n acc
    rw [List.enumFrom_cons, List.foldl_cons, ih, stepTool_findings]
    simp

theorem foldl_stepTool_vulns (total : Nat) (run : ToolRun α) :
    ∀ (tools : List String) (n : Nat) (acc : ScanRecord α),
      (((List.enumFrom n tools).foldl (stepTool total run) acc)).vulns =
        acc.vulns ++ tools.flatMap (fun t => okVulns run t) := by
  intro tools
  induction tools with
  | nil => intro n acc; simp
  | cons t ts ih =>
    intro n acc
    rw [List.enumFrom_cons, List.foldl_cons, ih, stepTool_vulns]
    simp

theorem foldl_stepTool_errors (total : Nat) (run : ToolRun α) :
    ∀ (tools : List String) (n : Nat) (acc : ScanRecord α),
      (((List.enumFrom n tools).foldl (stepTool total run) acc)).errors =
        acc.errors ++ tools.flatMap (fun t => errEntries run t) := by
  intro tools
  induction tools with
  | nil => intro n acc; simp
  | cons t ts ih =>
    intro n acc
    rw [List.enumFrom_cons, List.foldl_cons, ih, stepTool_errors]
    simp

theorem foldl_stepTool_updates (total : Nat) (run : ToolRun α) :
    ∀ (tools : List String) (n : Nat) (acc : ScanRecord α),
      (((List.enumFrom n tools).foldl (stepTool total run) acc)).progressUpdates =
        acc.progressUpdates ++ (List.range' n tools.length).map (fun i => i * 90 / total) := by
  intro tools
  induction tools with
  | nil => intro n acc; simp
  | cons t ts ih =>
    intro n acc
    rw [List.enumFrom_cons, List.foldl_cons, ih, stepTool_updates]
    simp [List.range'_succ]

theorem flatMap_okFindings_filter (run : ToolRun α) :
    ∀ tools : List String,
      tools.flatMap (fun t => okFindings run t) =
        (tools.filter (fun t => toolSucceeds run t)).flatMap (fun t => okFindings run t) := by
  intro tools
  induction tools with
  | nil => rfl
  | cons t ts ih =>
    by_cases h : toolSucceeds run t = true
    · simp [List.filter_cons, h, ih]
    · have hf : okFindings run t = [] := by
        unfold toolSucceeds at h
        unfold okFindings
        cases hr : run t with
        | ok p => rw [hr] at h; simp at h
        | error e => rfl
      simp [List.filter_cons, h, hf, ih]

theorem flatMap_okVulns_filter (run : ToolRun α) :
    ∀ tools : List String,
      tools.flatMap (fun t => okVulns run t) =
        (tools.filter (fun t => toolSucceeds run t)).flatMap (fun t => okVulns run t) := by
  intro tools
  induction tools with
  | nil => rfl
  | cons t ts ih =>
    by_cases h : toolSucceeds run t = true
    · simp [List.filter_cons, h, ih]
    · have hf : okVulns run t = [] := by
        unfold toolSucceeds at h
        unfold okVulns
        cases hr : run t with
        | ok p => rw [hr] at h; simp at h
        | error e => rfl
      simp [List.filter_cons, h, hf, ih]

theorem flatMap_errEntries_eq (run : ToolRun α) :
    ∀ tools : List String,
      tools.flatMap (fun t => errEntries run t) =
        (tools.filter (fun t => toolSucceeds run t = false)).map
          (fun t => (t, errOf run t)) := by
  intro tools
  induction tools with
  | nil => rfl
  | cons t ts ih =>
    unfold toolSucceeds errEntries errOf
    cases hr : run t with
    | ok p =>
      simp only [List.flatMap_cons, List.filter_cons]
      rw [hr]
      simpa [hr] using ih
    | error e =>
      simp only [List.flatMap_cons, List.filter_cons]
      rw [hr]
      simpa [hr] using ih

/-! ## C1 — partial task failure still completes the job -/

/-- C1: for every scan job decomposed into N tool tasks of which M fail
(0 < M < N), `_execute_scan` ends with status `"completed"`, the
aggregated findings and vulnerabilities are exactly those produced, in
order, by the N − M successful tasks, and each failure is recorded as a
per-task error entry; a task failure never moves the job to failed. -/
theorem scan_job_partial_failure_completes {α : Type} (tools : List String)
    (run : ToolRun α)
    (hM : 0 < failures run tools) (hN : failures run tools < tools.length) :
    (executeScan tools run).status = "completed" ∧
    (executeScan tools run).findings =
      (tools.filter (fun t => toolSucceeds run t)).flatMap (fun t => okFindings run t) ∧
    (executeScan tools run).vulns =
      (tools.filter (fun t => toolSucceeds run t)).flatMap (fun t => okVulns run t) ∧
    (executeScan tools run).errors =
      (tools.filter (fun t => toolSucceeds run t = false)).map
        (fun t => (t, errOf run t)) := by
  refine ⟨rfl, ?_, ?_, ?_⟩
  · show ((List.enumFrom 0 tools).foldl (stepTool tools.length run)
      { status := "running", progress := 0, stage := "Starting scan",
        vulns := [], findings := [], errors := [], progressUpdates := [] }).findings = _
    rw [foldl_stepTool_findings, flatMap_okFindings_filter]
    simp
  · show ((List.enumFrom 0 tools).foldl (stepTool tools.length run)
      { status := "running", progress := 0, stage := "Starting scan",
        vulns := [], findings := [], errors := [], progressUpdates := [] }).vulns = _
    rw [foldl_stepTool_vulns, flatMap_okVulns_filter]
    simp
  · show ((List.enumFrom 0 tools).foldl (stepTool tools.length run)
      { status := "running", progress := 0, stage := "Starting scan",
        vulns := [], findings := [], errors := [], progressUpdates := [] }).errors = _
    rw [foldl_stepTool_errors, flatMap_errEntries_eq]
    simp

/-- Witness for C1 at a concrete two-tool job with one failing tool. -/
theorem scan_job_partial_failure_completes_witness :
    0 < failures c1Run c1Tools ∧ failures c1Run c1Tools < c1Tools.length ∧
    (executeScan c1Tools c1Run).status = "completed" ∧
    (executeScan c1Tools c1Run).findings = [2] ∧
    (executeScan c1Tools c1Run).errors = [("nuclei", "boom")] :=
  ⟨by decide, by decide,
    (scan_job_partial_failure_completes c1Tools c1Run (by decide) (by decide)).1,
    by decide, by decide⟩

/-! ## C2 — a job with zero schedulable tasks -/

/-- C2 counterexample: with an empty tool list (e.g. an entirely invalid
requested-scanner selection filtered away by `_determine_scan_tools`),
`_execute_scan` skips the loop and still marks the scan `"completed"`,
not `"failed"` as the claim states. -/
theorem zero_tools_completed_counterexample :
    (executeScan ([] : List String) allOkRun).status = "completed" ∧
    ¬ (executeScan ([] : List String) allOkRun).status = "failed" := by
  constructor
  · rfl
  · decide

/-- C2 amended: a scan whose decomposition yields zero schedulable tasks
is still driven to status `"completed"`, with empty findings and
vulnerabilities and progress 100; the failed status is reserved for the
job-fatal exception handler of the orchestrator. -/
theorem zero_tools_job_still_completes {α : Type} (run : ToolRun α) :
    (executeScan ([] : List String) run).status = "completed" ∧
    (executeScan ([] : List String) run).findings = [] ∧
    (executeScan ([] : List String) run).vulns = [] ∧
    (executeScan ([] : List String) run).progress = 100 :=
  ⟨rfl, rfl, rfl, rfl⟩

/-! ## C8 — the progress values written during a job -/

/-- C8 counterexample: on a two-tool job where both tools succeed, the
orchestrator records the progress sequence 0, 45, 95, 100; after the
first of the two tasks reaches a terminal state the recorded value is
45 = int((1/2)·90), and the value 100·(1/2) = 50 demanded by the claim
is never written. -/
theorem progress_formula_counterexample :
    (executeScan c1Tools allOkRun).progressUpdates = [0, 45, 95, 100] ∧
    ¬ (50 ∈ (executeScan c1Tools allOkRun).progressUpdates) := by
  constructor
  · rfl
  · decide

/-- C8 amended: during a job with `totalTasks` tool tasks the
orchestrator sets progress to `int((idx/totalTasks)·90)` at the start of
the task with index `idx` (reserving 10 percent for processing), then 95
while saving and 100 on completion; it never writes
`completedTasks/totalTasks·100` after each task. -/
theorem progress_updates_formula {α : Type} (tools : List String) (run : ToolRun α) :
    (executeScan tools run).progressUpdates =
      (List.range tools.length).map (fun idx => idx * 90 / tools.length)
        ++ [95, 100] := by
  show (((List.enumFrom 0 tools).foldl (stepTool tools.length run)
      { status := "running", progress := 0, stage := "Starting scan",
        vulns := [], findings := [], errors := [], progressUpdates := [] }).progressUpdates
      ++ [95]) ++ [100] = _
  rw [foldl_stepTool_updates, List.range_eq_range']
  simp

/-! ## C7 — the admission check of the resource monitor -/

/-- Snapshot with 4 available cores, 100 MB available memory and a good
performance score. -/
def c7Snap : ResourceSnapshot :=
  { available_cpu_cores := 4, available_memory_mb := 100, performance_score := 1 }

/-- A requirement asking for more memory than `c7Snap` offers. -/
def c7Req : ResourceRequirement := { cpu_cores := 1, memory_mb := 256 }

/-- C7: `can_handle_task` admits a requirement iff the requested CPU
cores fit in the available cores, the requested memory fits in the
available memory, and the performance score of the snapshot is at least the
minimum admission score 0.3; in particular a requirement whose memory
exceeds the available memory is never admitted while that deficit
holds. -/
theorem can_admit_iff (res : ResourceSnapshot) (req : ResourceRequirement) :
    (can_handle_task res req = true ↔
      (req.cpu_cores ≤ res.available_cpu_cores ∧
        req.memory_mb ≤ res.available_memory_mb ∧
        3/10 ≤ res.performance_score)) ∧
    (res.available_memory_mb < req.memory_mb → can_handle_task res req = false) := by
  have hiff : can_handle_task res req = true ↔
      (req.cpu_cores ≤ res.available_cpu_cores ∧
        req.memory_mb ≤ res.available_memory_mb ∧
        3/10 ≤ res.performance_score) := by
    unfold can_handle_task
    split_ifs with h1 h2 h3
    · constructor
      · intro h; simp at h
      · rintro ⟨hc, _, _⟩; exact absurd h1 (not_lt.mpr hc)
    · constructor
      · intro h; simp at h
      · rintro ⟨_, hm, _⟩; exact absurd h2 (not_lt.mpr hm)
    · constructor
      · intro h; simp at h
      · rintro ⟨_, _, hs⟩; exact absurd h3 (not_lt.mpr hs)
    · constructor
      · intro _
        exact ⟨not_lt.mp h1, not_lt.mp h2, not_lt.mp h3⟩
      · intro _; rfl
  refine ⟨hiff, ?_⟩
  intro hm
  cases hck : can_handle_task res req with
  | false => rfl
  | true =>
    exfalso
    rcases hiff.mp hck with ⟨_, hm2, _⟩
    exact absurd hm (not_lt.mpr hm2)

/-- Witness for C7: the concrete 256 MB requirement is refused against
the 100 MB snapshot. -/
theorem can_admit_iff_witness : can_handle_task c7Snap c7Req = false :=
  (can_admit_iff c7Snap c7Req).2 (by decide)

/-! ## C5 — head-of-line scheduling -/

/-- Popping a non-empty heap with `heappop` returns the heap root (index 0), never
another element. -/
theorem heappop_fst (lt : α → α → Bool) (a : α) (rest : List α) :
    (heappop lt (a :: rest)).map Prod.fst = some a := by
  cases rest with
  | nil => rfl
  | cons b t =>
    have hne : (b :: t) ≠ ([] : List α) := by simp
    obtain ⟨x, hx⟩ := Option.isSome_iff_exists.mp (List.getLast?_isSome.mpr hne)
    unfold heappop
    rw [List.getLast?_cons_cons, hx]
    rfl

/-- C5: with a non-empty task queue, if the dependencies of the head task are
not all completed or the resource monitor refuses its requirements, then
`get_next_task` returns no task for this cycle and leaves the scheduler
unchanged; and whenever `get_next_task` does return a task, that task is
the queue head — it never skips ahead to a later-queued task. -/
theorem get_next_task_head_of_line (st : SchedulerState) (head : ScheduledTask)
    (rest : List ScheduledTask) (hq : st.task_queue = head :: rest) :
    ((dependencies_satisfied st head = false ∨
        can_handle_task st.resources head.requirements = false) →
      get_next_task st = (none, st)) ∧
    (∀ t st2, get_next_task st = (some t, st2) → t = head) := by
  have key : get_next_task st =
      if dependencies_satisfied st head = true then
        if can_handle_task st.resources head.requirements = true then
          match heappop taskLt (head :: rest) with
          | some (t2, rest2) => (some t2, { st with task_queue := rest2 })
          | none => (none, st)
        else (none, st)
      else (none, st) := by
    unfold get_next_task
    rw [hq]
  constructor
  · intro hblock
    rw [key]
    rcases hblock with h | h
    · simp [h]
    · cases hd : dependencies_satisfied st head <;> simp [hd, h]
  · intro t st2 hres
    rw [key] at hres
    by_cases hd : dependencies_satisfied st head = true
    · by_cases hc : can_handle_task st.resources head.requirements = true
      · rw [if_pos hd, if_pos hc] at hres
        cases hp : heappop taskLt (head :: rest) with
        | none => rw [hp] at hres; simp at hres
        | some pr =>
          obtain ⟨t2, q2⟩ := pr
          have hfst := heappop_fst taskLt head rest
          rw [hp] at hfst hres
          have ht2 : t2 = head := by simpa using hfst
          simp at hres
          rw [← hres.1]
          exact ht2
      · rw [if_pos hd, if_neg hc] at hres
        simp at hres
    · rw [if_neg hd] at hres
      simp at hres

/-- A task whose single dependency has not completed. -/
def c5Task : ScheduledTask :=
  { task_id := "t1", scanner_name := "sast", path := "/repo",
    priority := .high, resource_type := .cpuIntensive,
    requirements := {}, metrics := {}, dependencies := ["d1"] }

/-- A scheduler holding only `c5Task`, with ample resources. -/
def c5State : SchedulerState :=
  { resources := { available_cpu_cores := 8, available_memory_mb := 4096,
                   performance_score := 1 },
    task_queue := [c5Task] }

/-- Witness for C5: the dependency of the head task is unmet, so the cycle
returns nothing and the state is untouched. -/
theorem get_next_task_head_of_line_witness :
    dependencies_satisfied c5State c5Task = false ∧
    get_next_task c5State = (none, c5State) :=
  ⟨by decide,
    (get_next_task_head_of_line c5State c5Task [] rfl).1 (Or.inl (by decide))⟩

/-! ## C6 — dispatch order of a Critical and a Low task -/

/-- C6: for admissible tasks A (Critical) and B (Low) with satisfied
dependencies, pushed onto an empty queue in either order by
the `heappush` of `schedule_task`, the scheduler returns A strictly before B:
the first `get_next_task` yields A and the next yields B. -/
theorem scheduler_priority_order (A B : ScheduledTask) (st : SchedulerState)
    (hA : A.priority = TaskPriority.critical) (hB : B.priority = TaskPriority.low)
    (hq : st.task_queue = heappush taskLt (heappush taskLt [] B) A ∨
          st.task_queue = heappush taskLt (heappush taskLt [] A) B)
    (hdA : dependencies_satisfied st A = true)
    (hdB : dependencies_satisfied st B = true)
    (hcA : can_handle_task st.resources A.requirements = true)
    (hcB : can_handle_task st.resources B.requirements = true) :
    get_next_task st = (some A, { st with task_queue := [B] }) ∧
    (get_next_task { st with task_queue := [B] }).1 = some B := by
  have hq2 : st.task_queue = [A, B] := by
    rcases hq with h | h
    · rw [h]
      simp [heappush, siftdownLoop, taskLt, hA, hB, TaskPriority.val]
    · rw [h]
      simp [heappush, siftdownLoop, taskLt, hA, hB, TaskPriority.val]
  have hpop : heappop taskLt [A, B] = some (A, [B]) := rfl
  constructor
  · have key : get_next_task st =
        if dependencies_satisfied st A = true then
          if can_handle_task st.resources A.requirements = true then
            match heappop taskLt [A, B] with
            | some (t2, rest2) => (some t2, { st with task_queue := rest2 })
            | none => (none, st)
          else (none, st)
        else (none, st) := by
      unfold get_next_task
      rw [hq2]
    rw [key, if_pos hdA, if_pos hcA, hpop]
  · have hd2 : dependencies_satisfied { st with task_queue := [B] } B = true := hdB
    have hc2 : can_handle_task ({ st with task_queue := [B] } : SchedulerState).resources
        B.requirements = true := hcB
    have key2 : get_next_task { st with task_queue := [B] } =
        if dependencies_satisfied { st with task_queue := [B] } B = true then
          if can_handle_task ({ st with task_queue := [B] } : SchedulerState).resources
              B.requirements = true then
            match heappop taskLt [B] with
            | some (t2, rest2) =>
              (some t2, { st with task_queue := rest2 })
            | none => (none, { st with task_queue := [B] })
          else (none, { st with task_queue := [B] })
        else (none, { st with task_queue := [B] }) := by
      unfold get_next_task
      rfl
    rw [key2, if_pos hd2, if_pos hc2]
    rfl

/-- A concrete Critical task. -/
def c6A : ScheduledTask :=
  { task_id := "a", scanner_name := "secret", path := "/r",
    priority := .critical, resource_type := .ioIntensive,
    requirements := {}, metrics := {} }

/-- A concrete Low task. -/
def c6B : ScheduledTask :=
  { task_id := "b", scanner_name := "docs", path := "/r",
    priority := .low, resource_type := .ioIntensive,
    requirements := {}, metrics := {} }

/-- A scheduler that received B first and then A. -/
def c6State : SchedulerState :=
  { resources := { available_cpu_cores := 8, available_memory_mb := 4096,
                   performance_score := 1 },
    task_queue := heappush taskLt (heappush taskLt [] c6B) c6A }

/-- Witness for C6 at the concrete pair: A is dispatched first, B second,
although B was pushed first. -/
theorem scheduler_priority_order_witness :
    (get_next_task c6State).1 = some c6A ∧
    (get_next_task (get_next_task c6State).2).1 = some c6B := by
  obtain ⟨h1, h2⟩ := scheduler_priority_order c6A c6B c6State rfl rfl (Or.inl rfl)
    (by decide) (by decide)
    (by norm_num [can_handle_task, c6State, c6A])
    (by norm_num [can_handle_task, c6State, c6B])
  constructor
  · rw [h1]
  · rw [h1]
    exact h2

/-! ## C10 — completing an unknown task id is a no-op -/

/-- C10: `mark_task_completed` with a task id absent from the running
set returns the state unchanged: queue, running, completed, statistics
and every scanner profile are all identical. -/
theorem mark_unknown_task_noop (st : SchedulerState) (task_id : String)
    (success : Bool) (execution_time : Option ℚ) (now : ℚ)
    (h : st.running_tasks.lookup task_id = none) :
    mark_task_completed st task_id success execution_time now = st := by
  unfold mark_task_completed
  rw [h]

/-- A task standing in the running set of the C10 witness state. -/
def c10Task : ScheduledTask :=
  { task_id := "t1", scanner_name := "sast", path := "/repo",
    priority := .high, resource_type := .cpuIntensive,
    requirements := {}, metrics := {} }

/-- A scheduler with one running task `"t1"`. -/
def c10State : SchedulerState :=
  { resources := { available_cpu_cores := 8, available_memory_mb := 4096,
                   performance_score := 1 },
    running_tasks := [("t1", { task := c10Task, start_time := 0 })] }

/-- Witness for C10: completing the unknown id `"t2"` changes nothing. -/
theorem mark_unknown_task_noop_witness :
    c10State.running_tasks.lookup "t2" = none ∧
    mark_task_completed c10State "t2" true none 5 = c10State :=
  ⟨by decide, mark_unknown_task_noop c10State "t2" true none 5 (by decide)⟩

/-! ## C3 — cache hits and the per-path checksum key -/

/-- Cache state after storing a `"sast"` result for path `"/p"` at time 0,
when the live checksum of `"/p"` was 1. -/
def c3S1 : CacheState Nat := cache_scan_result {} "sast" "/p" "" 0 1 0

/-- State after additionally storing a `"semgrep"` result for the same path at time 10, after
the target changed so that its live checksum became 2.  The second store
overwrites the shared per-path checksum key of `"/p"`. -/
def c3S2 : CacheState Nat := cache_scan_result c3S1 "semgrep" "/p" "" 1 2 10

/-- C3 counterexample: looking up the `"sast"` entry of `c3S2` at time 20,
when the live checksum of `"/p"` is 2, reports a HIT and returns the
payload stored at time 0 — whose recorded checksum is 1 ≠ 2.  The claim
("a lookup never returns a payload whose recorded checksum differs from
the current checksum of the target") is false: `_is_cache_valid` compares
against the per-path `checksum:{path}` key, which the later `"semgrep"`
store overwrote, not against the checksum recorded in the entry. -/
theorem cache_lookup_stale_counterexample :
    ((get_cached_scan_result c3S2 "sast" "/p" "" 2 20).1.map
        (fun e => e.path_checksum)) = some 1 ∧ (1 : Nat) ≠ 2 := by
  constructor
  · norm_num [c3S2, c3S1, cache_scan_result, get_cached_scan_result, is_cache_valid,
      redisGet, redisDelete, dictInsert, List.lookup]
  · decide

/-- C3 amended: for a cache entry that is the most recent store for its
path (here: the only one), a lookup is a hit iff the checksum recomputed
from the live target equals the stored checksum and the
scan-result TTL (3600 s) has not expired, and on any mismatch the entry
is not live in the resulting store (miss plus eviction).  In general the
validity check compares against the per-path checksum key, which is
shared by all scanners of the path and overwritten by every later store,
so a hit can return an older payload whose own recorded checksum differs
from the live target (see the counterexample). -/
theorem cache_single_store_lookup_iff {α : Type} (scanner path config : String) (r : α)
    (c0 cur : Nat) (t0 t : ℚ) (hle : t0 ≤ t) :
    (((get_cached_scan_result (cache_scan_result ({} : CacheState α) scanner path config r c0 t0)
        scanner path config cur t).1.isSome = true) ↔
      (cur = c0 ∧ t < t0 + 3600)) ∧
    ((¬ (cur = c0 ∧ t < t0 + 3600)) →
      redisGet t (get_cached_scan_result
          (cache_scan_result ({} : CacheState α) scanner path config r c0 t0)
          scanner path config cur t).2.scan_cache (scanner, path, config) = none) := by
  by_cases ht : t < t0 + 3600
  · have ht2 : t < t0 + 86400 := by linarith
    by_cases hc : cur = c0
    · constructor
      · simp [cache_scan_result, get_cached_scan_result, is_cache_valid, redisGet,
          dictInsert, ht, ht2, hc]
      · intro h
        exact absurd ⟨hc, ht⟩ h
    · constructor
      · simp [cache_scan_result, get_cached_scan_result, is_cache_valid, redisGet,
          redisDelete, dictInsert, ht, ht2, hc]
      · intro h
        simp [cache_scan_result, get_cached_scan_result, is_cache_valid, redisGet,
          redisDelete, dictInsert, ht, ht2, hc]
  · constructor
    · simp [cache_scan_result, get_cached_scan_result, is_cache_valid, redisGet,
        redisDelete, dictInsert, ht]
    · intro h
      simp [cache_scan_result, get_cached_scan_result, is_cache_valid, redisGet,
        redisDelete, dictInsert, ht]

/-- Witness for the amended C3 at a concrete fresh store: an unchanged
checksum within the TTL is a hit. -/
theorem cache_single_store_lookup_iff_witness :
    (get_cached_scan_result (cache_scan_result ({} : CacheState Nat) "sast" "/p" "" 7 1 0)
        "sast" "/p" "" 1 10).1.isSome = true :=
  (cache_single_store_lookup_iff "sast" "/p" "" 7 1 1 0 10 (by norm_num)).1.mpr
    ⟨rfl, by norm_num⟩

/-! ## C9 — incremental scan planning -/

/-- C9: with an empty changed-file set no scanner must re-run (every
selected scanner is cache-eligible, landing in `cache_valid` exactly
when its cache lookup hits and in `full_scan_needed` otherwise); with a
non-empty changed-file set a scanner must re-run iff some changed file
matches its pattern table — so a scanner whose table contains `"*"`
always must re-run — and an unaffected scanner again stays
cache-eligible. -/
theorem incremental_plan_spec (scanners changed_files : List String)
    (cacheHit : String → Bool) :
    (changed_files = [] →
      (get_incremental_scan_plan scanners changed_files cacheHit).rescan_needed = [] ∧
      ∀ s ∈ scanners,
        s ∈ (get_incremental_scan_plan scanners changed_files cacheHit).cache_valid ∨
        s ∈ (get_incremental_scan_plan scanners changed_files cacheHit).full_scan_needed) ∧
    (changed_files ≠ [] →
      (∀ s, s ∈ (get_incremental_scan_plan scanners changed_files cacheHit).rescan_needed ↔
        (s ∈ scanners ∧ scanner_affected_by_changes s changed_files = true)) ∧
      (∀ s ∈ scanners, "*" ∈ scanner_file_patterns s →
        s ∈ (get_incremental_scan_plan scanners changed_files cacheHit).rescan_needed) ∧
      (∀ s ∈ scanners, scanner_affected_by_changes s changed_files = false →
        s ∈ (get_incremental_scan_plan scanners changed_files cacheHit).cache_valid ∨
        s ∈ (get_incremental_scan_plan scanners changed_files cacheHit).full_scan_needed)) := by
  constructor
  · intro h
    subst h
    constructor
    · simp [get_incremental_scan_plan]
    · intro s hs
      by_cases hc : cacheHit s = true
      · left
        simp [get_incremental_scan_plan, List.mem_filter, hs, hc]
      · right
        simp only [Bool.not_eq_true] at hc
        simp [get_incremental_scan_plan, List.mem_filter, hs, hc]
  · intro h
    have hne : changed_files.isEmpty = false := by
      cases changed_files with
      | nil => exact absurd rfl h
      | cons a l => rfl
    have haff : ∀ s : String, "*" ∈ scanner_file_patterns s →
        scanner_affected_by_changes s changed_files = true := by
      intro s hstar
      cases changed_files with
      | nil => exact absurd rfl h
      | cons f fs =>
        unfold scanner_affected_by_changes
        simp only [List.any_cons, Bool.or_eq_true]
        left
        rw [List.any_eq_true]
        exact ⟨"*", hstar, by simp⟩
    refine ⟨?_, ?_, ?_⟩
    · intro s
      simp [get_incremental_scan_plan, hne, List.mem_filter]
    · intro s hs hstar
      simp [get_incremental_scan_plan, hne, List.mem_filter, hs, haff s hstar]
    · intro s hs hnaff
      by_cases hc : cacheHit s = true
      · left
        simp [get_incremental_scan_plan, hne, List.mem_filter, hs, hnaff, hc]
      · right
        simp only [Bool.not_eq_true] at hc
        simp [get_incremental_scan_plan, hne, List.mem_filter, hs, hnaff, hc]

/-- Scanner selection for the C9 witness. -/
def c9Scanners : List String := ["secret", "sast", "safety"]

/-- A changed-file set containing only a README. -/
def c9Changed : List String := ["/repo/src/README.md"]

/-- Witness for C9: with only a README changed, `"secret"` (pattern
`"*"`) must re-run while `"sast"` (pattern `.py`) stays cache-eligible;
and the elif fall-through is live: a changed file literally named `.py`
makes `"sast"` must-run through the file-name comparison although its
pathlib suffix is empty. -/
theorem incremental_plan_spec_witness :
    "secret" ∈ (get_incremental_scan_plan c9Scanners c9Changed (fun _ => false)).rescan_needed ∧
    ("sast" ∈ (get_incremental_scan_plan c9Scanners c9Changed (fun _ => false)).cache_valid ∨
     "sast" ∈ (get_incremental_scan_plan c9Scanners c9Changed (fun _ => false)).full_scan_needed) ∧
    "sast" ∈ (get_incremental_scan_plan ["sast"] ["/repo/.py"] (fun _ => false)).rescan_needed := by
  have h := incremental_plan_spec c9Scanners c9Changed (fun _ => false)
  refine ⟨?_, ?_, ?_⟩
  · exact (h.2 (by decide)).2.1 "secret" (by decide) (by decide)
  · exact (h.2 (by decide)).2.2 "sast" (by decide) (by decide)
  · exact (((incremental_plan_spec ["sast"] ["/repo/.py"] (fun _ => false)).2
      (by decide)).1 "sast").mpr ⟨by decide, by decide⟩

/-! ## C4 — in-flight deduplication by key -/

/-- C4 counterexample: under the interleaving in which both requests
perform their cache lookup before either stores (schedule 0,1), both
miss and both invoke the adapter: two invocations for the same
(scanner, checksum) key are in flight simultaneously, and after both
finish the adapter has been invoked twice.  No pending marker is ever
claimed, so the claimed system-wide single-flight invariant is false. -/
theorem inflight_dedup_counterexample :
    inFlightCount (flightRun 7 [false, true]) = 2 ∧
    (flightRun 7 [false, true, false, true]).invocations = 2 := by decide

/-- C4 amended: `_execute_scanner_async` claims no pending marker on a
cache miss, so two concurrent requests for the same key whose lookups
both precede either store each invoke the adapter; only a request whose
lookup happens after the completed store of another request attaches to the
cached result without a new invocation. -/
theorem inflight_no_marker_behaviour (r : Nat) :
    (flightRun r [false, true]).invocations = 2 ∧
    (flightRun r [false, false, true]).invocations = 1 ∧
    (flightRun r [false, false, true]).phase1 = ReqPhase.done true :=
  ⟨rfl, rfl, rfl⟩
